import Mathlib

/-!
Verification of the `bl` repository-assembly tool against its
natural-language specification.  The Lean definitions below are a shallow
embedding of the Python sources under `src/bl/`: pure functions are
translated directly, subprocess- and filesystem-effecting code is modelled
as explicit state passing over an abstract environment (`Env`) together
with an event trace (`Ev`).
-/

namespace BL

/-! Python primitive models. -/

/-- Python `a or b` on two optional strings (None and the empty string are
falsy). -/
def pyOr (a b : Option String) : Option String :=
  match a with
  | some s => if s = "" then b else some s
  | none => b

/-- Python `a or b` where the fallback is a plain string. -/
def pyOrD (a : Option String) (b : String) : String :=
  match a with
  | some s => if s = "" then b else s
  | none => b

/-- Python string interpolation of an optional string: `None` renders as
the text "None". -/
def pyStr : Option String → String
  | some s => s
  | none => "None"

/-- Boolean test that the first character list is an initial segment of the
second. -/
def listPre : List Char → List Char → Bool
  | [], _ => true
  | _ :: _, [] => false
  | a :: as, b :: bs => a = b && listPre as bs

/-- Substring containment, modelling Python `needle in hay`. -/
def strContains (hay needle : String) : Bool :=
  go needle.data hay.data
where
  go (n : List Char) : List Char → Bool
    | [] => listPre n []
    | c :: cs => listPre n (c :: cs) || go n cs

/-- Split a character list at the first occurrence of `c`, if any. -/
def splitFirst (c : Char) : List Char → Option (List Char × List Char)
  | [] => none
  | a :: as =>
      if a = c then some ([], as)
      else (splitFirst c as).map (fun p => (a :: p.1, p.2))

/-- Character-list core of `pySplit`. -/
def pySplitCh (c : Char) : Nat → List Char → List (List Char)
  | 0, s => [s]
  | Nat.succ k, s =>
      match splitFirst c s with
      | none => [s]
      | some (p, q) => p :: pySplitCh c k q

/-- Python `s.split(c, maxsplit)` with an explicit one-character separator:
empty fields are kept. -/
def pySplit (c : Char) (maxsplit : Nat) (s : String) : List String :=
  (pySplitCh c maxsplit s.data).map (fun l => String.mk l)

/-- Python negative indexing `l[-2]`, defaulting to the empty string when
the list is too short (Python would raise there; no modelled code path
reaches that case). -/
def pyIdxNeg2 (l : List String) : String := l.getD (l.length - 2) ""

/-- Character-list core of `pySplitAll`. -/
def pySplitAllCh (c : Char) : List Char → List (List Char)
  | [] => [[]]
  | a :: as =>
      if a = c then [] :: pySplitAllCh c as
      else
        match pySplitAllCh c as with
        | [] => [[a]]
        | h :: t => (a :: h) :: t

/-- Python `s.split(c)` with an explicit one-character separator and no
maxsplit: empty fields are kept. -/
def pySplitAll (c : Char) (s : String) : List String :=
  (pySplitAllCh c s.data).map (fun l => String.mk l)

/-- Python `str(path_a / path_b)`: an absolute right operand replaces the
left one. -/
def pathJoin (a b : String) : String :=
  if listPre ['/'] b.data then b else a ++ "/" ++ b

/-- Association-list lookup modelling Python `dict.get` (dicts preserve
insertion order; keys are unique in all modelled inputs). -/
def alookup {κ α : Type} [DecidableEq κ] : List (κ × α) → κ → Option α
  | [], _ => none
  | (k, v) :: rest, k2 => if k = k2 then some v else alookup rest k2

/-- Association-list update modelling Python `d[k] = v`: an existing key
keeps its position, a new key is appended. -/
def assocSet {κ α : Type} [DecidableEq κ] (l : List (κ × α)) (k : κ) (v : α) :
    List (κ × α) :=
  match l with
  | [] => [(k, v)]
  | (k0, v0) :: rest =>
      if k0 = k then (k0, v) :: rest else (k0, v0) :: assocSet rest k v

/-- Two-level lookup into a nested association list. -/
def lookup2 {κ1 κ2 α : Type} [DecidableEq κ1] [DecidableEq κ2]
    (m : List (κ1 × List (κ2 × α))) (k1 : κ1) (k2 : κ2) : Option α :=
  alookup ((alookup m k1).getD []) k2

/-! Data model, from `src/bl/spec_parser.py`. -/

/-- OriginType from `spec_parser.py`: the type of an origin reference. -/
inductive OriginType where
  | BRANCH
  | PR
  | REF
deriving DecidableEq, Repr

/-- RefspecInfo from `spec_parser.py`.  The refspec is optional because the
deprecated three-part merge form can store a missing frozen lookup (Python
`None`) in it. -/
structure RefspecInfo where
  remote : String
  refspec : Option String
  type : OriginType
  ref_name : Option String
deriving DecidableEq, Repr

/-- One slot frozen section: remote name to (refspec to pinned commit). -/
def FrozenSection := List (String × List (String × String))

instance : DecidableEq FrozenSection := by
  unfold FrozenSection
  infer_instance

/-- ModuleSpec from `spec_parser.py` (progress-rendering fields omitted;
optional lists are stored with their Python truthiness preserved: an absent
list and an empty list both behave as falsy). -/
structure ModuleSpec where
  modules : List String
  remotes : List (String × String)
  refspec_info : List RefspecInfo
  shell_commands : List String
  patch_globs_to_apply : List String
  target_folder : Option String
  frozen_modules : Option FrozenSection
  locales : List String

/-- Model of the regex `^refs/pull/\d+/head$` (`pr_pattern` in
`get_origin_type`). -/
def prMatch (s : String) : Bool :=
  let pre := "refs/pull/".data
  listPre pre s.data &&
    (let rest := s.data.drop pre.length
     let ds := rest.takeWhile Char.isDigit
     !ds.isEmpty && rest.drop ds.length == "/head".data)

/-- Model of the regex `^[a-z0-9]{40}$` (`ref_pattern` in
`get_origin_type`; note the source pattern is lowercase alphanumeric, not
hexadecimal, despite its own comment). -/
def refMatch (s : String) : Bool :=
  s.data.length == 40 && s.data.all (fun c => c.isDigit || ('a' ≤ c && c ≤ 'z'))

/-- Modelled from the spec: the 40-hex pattern `^[a-f0-9]{40}$` that §3 of
the specification prescribes for REF classification.  Kept separate from
`refMatch` (the pattern actually in the source) so the two can be
compared. -/
def refMatchSpecHex (s : String) : Bool :=
  s.data.length == 40 && s.data.all (fun c => c.isDigit || ('a' ≤ c && c ≤ 'f'))

/-- get_origin_type from `spec_parser.py`. -/
def get_origin_type (s : String) : OriginType :=
  if prMatch s then OriginType.PR
  else if refMatch s then OriginType.REF
  else OriginType.BRANCH

/-- make_remote_merge_from_src from `spec_parser.py`. -/
def make_remote_merge_from_src (src : String) :
    List (String × String) × List String :=
  let parts := pySplit ' ' 1 src
  ([("origin", parts.getD 0 "")], ["origin " ++ parts.getD 1 ""])

/-- Python truthiness of `frozen_for_section` in `load_spec_file`: present
and a non-empty mapping. -/
def frozenTruthy : Option FrozenSection → Bool
  | some fs => !fs.isEmpty
  | none => false

/-- One iteration of the merge-entry loop of load_spec_file
(`spec_parser.py` lines 180-218): parses one entry of `merges` into a
RefspecInfo.  Entries that split into neither two nor three parts are
silently skipped (`none`). -/
def parseMergeEntry (frozen_for_section : Option FrozenSection)
    (entry : String) : Option RefspecInfo :=
  match pySplit ' ' 2 entry with
  | [remote_key, ref_spec] =>
      let ref_type := get_origin_type ref_spec
      if frozenTruthy frozen_for_section then
        let remote_freezes :=
          (alookup (frozen_for_section.getD []) remote_key).getD []
        let frozen_ref := alookup remote_freezes ref_spec
        some { remote := remote_key, refspec := some (pyOrD frozen_ref ref_spec),
               type := OriginType.REF, ref_name := some ref_spec }
      else
        some { remote := remote_key, refspec := some ref_spec,
               type := ref_type, ref_name := none }
  | [remote_key, _, ref_spec] =>
      let ref_type := get_origin_type ref_spec
      if frozenTruthy frozen_for_section then
        let remote_freezes :=
          (alookup (frozen_for_section.getD []) remote_key).getD []
        some { remote := remote_key, refspec := alookup remote_freezes ref_spec,
               type := ref_type, ref_name := some ref_spec }
      else
        some { remote := remote_key, refspec := some ref_spec,
               type := ref_type, ref_name := none }
  | _ => none

/-- The full merge list parse of load_spec_file. -/
def parse_merges (frozen_for_section : Option FrozenSection)
    (merges : List String) : List RefspecInfo :=
  merges.filterMap (parseMergeEntry frozen_for_section)

/-! Processor embedding, from `src/bl/spec_processor.py`.  The external
`git` tool, the shell, and the filesystem are abstracted into an
environment `Env`; every effecting call of a slot worker is recorded as an
event.  Within one slot all work is sequential in the source (the state
machine never forks), so a slot worker is a pure function from the
environment to a return code and an event trace. -/

/-- Result triple of `run_git` / a subshell: exit code plus trimmed stdout
and stderr texts. -/
structure GitRes where
  ret : Int
  out : String
  err : String

/-- Abstract environment a slot worker runs against.  `git` maps an
argument vector to its result (the working directory is the slot tree
throughout and is therefore left implicit); `pathIsDir` is the INSPECT
check `module_path.exists() and module_path.is_dir()`; the link fields
describe `links/<module>`; `symlinkErr` gives the OSError text of the
symlink call for a module, if any. -/
structure Env where
  git : List String → GitRes
  pathIsDir : Bool
  linkIsSymlink : String → Bool
  linkExists : String → Bool
  shell : String → GitRes
  symlinkErr : String → Option String

/-- One effecting step of a slot worker. -/
inductive Ev where
  | git (args : List String)
  | sh (cmd : String)
  | mkdirLinks
  | unlink (path : String)
  | symlink (src dst : String)
deriving DecidableEq, Repr

/-- create_clone_args from `spec_processor.py`.  Note `--sparse` is in the
unconditional leading segment. -/
def create_clone_args (name : String) (ref_spec_info : RefspecInfo)
    (remote_url : String) (shallow : Bool) : List String :=
  ["clone", "--filter=tree:0", "--sparse"]
    ++ (if name = "odoo" || shallow then ["--depth", "1"] else [])
    ++ (if ref_spec_info.type = OriginType.REF then
          ["--revision", pyStr ref_spec_info.refspec]
        else
          ["--origin", ref_spec_info.remote, "--branch", pyStr ref_spec_info.refspec])
    ++ [remote_url]

/-- normalize_merge_result from `spec_processor.py`. -/
def normalize_merge_result (ret : Int) (out err : String) : Int × String :=
  if strContains out "CONFLICT" then (-1, out) else (ret, err)

/-- get_local_ref from `spec_processor.py` (the variant used by the fetch,
merge and stale-branch-delete paths): PR references get a `pr/` name, all
others `loc-` plus the refspec, ignoring `ref_name`. -/
def get_local_ref (origin : RefspecInfo) : String :=
  if origin.type = OriginType.PR then
    "pr/" ++ pyIdxNeg2 (pySplitAll '/' (pyStr origin.refspec))
  else
    "loc-" ++ pyStr origin.refspec

/-- get_local_ref from `src/bl/utils.py` (the variant used by the freeze
engine). -/
def get_local_ref_utils (origin : RefspecInfo) : String :=
  "loc-" ++ pyStr (pyOr origin.ref_name origin.refspec)

/-- get_module_path from `spec_processor.py` (same body as the copy in
`utils.py`); `str(Path)` normalization drops the trailing slash of
"src/". -/
def get_module_path (workdir : String) (module_name : String)
    (spec : ModuleSpec) : String :=
  if module_name = "odoo" && spec.target_folder.isNone then
    pathJoin workdir "src"
  else
    match spec.target_folder with
    | some tf => pathJoin workdir tf
    | none => pathJoin (pathJoin workdir "external-src") module_name

/-- Argument vector of the merge invocation in try_merge. -/
def mergeArgs (r : RefspecInfo) : List String :=
  ["merge", "--no-edit", get_local_ref r]

/-- try_merge from `spec_processor.py`: merge, normalize, and abort on a
CONFLICT in the normalized message. -/
def try_merge (env : Env) (r : RefspecInfo) : (Int × String) × List Ev :=
  let res := env.git (mergeArgs r)
  let n := normalize_merge_result res.ret res.out res.err
  let t :=
    if strContains n.2 "CONFLICT" then
      [Ev.git (mergeArgs r), Ev.git ["merge", "--abort"]]
    else [Ev.git (mergeArgs r)]
  (n, t)

/-- The merge loop of process_module (merge_spec_into_tree applied to each
non-base descriptor in declaration order, stopping at the first failing
result). -/
def mergeLoop (env : Env) : List RefspecInfo → Int × List Ev
  | [] => (0, [])
  | r :: rs =>
      let m := try_merge env r
      if m.1.1 ≠ 0 then (m.1.1, m.2)
      else
        let rec2 := mergeLoop env rs
        (rec2.1, m.2 ++ rec2.2)

/-- run_shell_commands from `spec_processor.py`: a failing command aborts
any in-progress mailbox patch and stops with -1. -/
def shellLoop (env : Env) : List String → Int × List Ev
  | [] => (0, [])
  | cmd :: rest =>
      if (env.shell cmd).ret ≠ 0 then
        (-1, [Ev.sh cmd, Ev.git ["am", "--abort"]])
      else
        let rec2 := shellLoop env rest
        (rec2.1, Ev.sh cmd :: rec2.2)

/-- The patch loop of process_module: `git am <glob>` per glob, aborting
and returning the exit code on failure. -/
def patchLoop (env : Env) : List String → Int × List Ev
  | [] => (0, [])
  | g :: gs =>
      let res := env.git ["am", g]
      if res.ret ≠ 0 then (res.ret, [Ev.git ["am", g], Ev.git ["am", "--abort"]])
      else
        let rec2 := patchLoop env gs
        (rec2.1, Ev.git ["am", g] :: rec2.2)

/-- Per-module body of the loop in link_all_modules: unlink an existing
symlink, then create the new one; an OSError stops the loop with -1 and
the error text. -/
def linkLoop (env : Env) (links_path module_path : String) :
    List String → (Int × String) × List Ev
  | [] => ((0, ""), [])
  | m :: ms =>
      let src := pathJoin module_path m
      let dst := pathJoin links_path m
      let pre := (if env.linkIsSymlink m then [Ev.unlink dst] else [])
        ++ [Ev.symlink src dst]
      match env.symlinkErr m with
      | some e => ((-1, e), pre)
      | none =>
          let rec2 := linkLoop env links_path module_path ms
          (rec2.1, pre ++ rec2.2)

/-- link_all_modules from `spec_processor.py`: ensure `links/` exists, then
link every module of the filtered list.  The symlink source is
`module_path / module_name` taken verbatim (no relativization). -/
def link_all_modules (env : Env) (workdir : String) (module_list : List String)
    (module_path : String) : (Int × String) × List Ev :=
  let links_path := pathJoin workdir "links"
  let l := linkLoop env links_path module_path module_list
  (l.1, Ev.mkdirLinks :: l.2)

/-- filter_non_link_module from `spec_processor.py`: keep a module when
`links/<module>` is a symlink or does not exist. -/
def filter_non_link_module (env : Env) (spec : ModuleSpec) : List String :=
  spec.modules.filter (fun m => env.linkIsSymlink m || !env.linkExists m)

/-- Helper of get_refspec_by_remote: append one descriptor to its remote
group, preserving Python dict insertion order. -/
def assocAppend (acc : List (String × List RefspecInfo)) (k : String)
    (r : RefspecInfo) : List (String × List RefspecInfo) :=
  match acc with
  | [] => [(k, [r])]
  | (k0, l) :: rest =>
      if k0 = k then (k0, l ++ [r]) :: rest else (k0, l) :: assocAppend rest k r

/-- get_refspec_by_remote from `spec_processor.py`. -/
def get_refspec_by_remote (l : List RefspecInfo) :
    List (String × List RefspecInfo) :=
  l.foldl (fun acc r => assocAppend acc r.remote r) []

/-- Argument vector of one fetch_multi invocation. -/
def fetch_multi_args (conc : Nat) (remote : String)
    (lst : List RefspecInfo) : List String :=
  ["fetch", "-j", toString conc, remote]
    ++ lst.map (fun r => pyStr r.refspec ++ ":" ++ get_local_ref r)

/-- clone_base_repo_ref from `spec_processor.py`: run the clone plan, then
for a REF base create a working branch (overwriting the reported
result). -/
def clone_base_repo_ref (env : Env) (name : String) (root : RefspecInfo)
    (remote_url module_path : String) (shallow : Bool) : GitRes × List Ev :=
  let args := create_clone_args name root remote_url shallow ++ [module_path]
  let res := env.git args
  if root.type = OriginType.REF then
    let bname := pyOrD root.ref_name (String.mk ((pyStr root.refspec).data.take 10))
    let res2 := env.git ["checkout", "-b", bname]
    (res2, [Ev.git args, Ev.git ["checkout", "-b", bname]])
  else
    (res, [Ev.git args])

/-- setup_new_repo from `spec_processor.py`: returns the failing exit code
or Python `None`; the caller in process_module discards this value. -/
def setup_new_repo (env : Env) (name : String) (spec : ModuleSpec)
    (root : RefspecInfo) (remote_url module_path : String) :
    Option Int × List Ev :=
  let shallow_clone := spec.refspec_info.length == 1
  let c := clone_base_repo_ref env name root remote_url module_path shallow_clone
  (if c.1.ret ≠ 0 then some c.1.ret else none, c.2)

/-- reset_repo_for_work from `spec_processor.py`: a non-empty porcelain
status returns early with the STATUS command exit code (normally 0); the
caller in process_module discards this value too. -/
def reset_repo_for_work (env : Env) (spec : ModuleSpec) (root : RefspecInfo) :
    Option Int × List Ev :=
  let st := env.git ["status", "--porcelain"]
  if st.out ≠ "" then (some st.ret, [Ev.git ["status", "--porcelain"]])
  else
    let sh := env.git ["rev-parse", "--is-shallow-repository"]
    let unshallowT :=
      if spec.refspec_info.length > 1 && sh.out == "true" then
        [Ev.git ["fetch", "--unshallow"]]
      else []
    let reset_target := root.remote ++ "/" ++ pyStr root.refspec
    let rt := env.git ["reset", "--hard", reset_target]
    let t0 := [Ev.git ["status", "--porcelain"],
               Ev.git ["rev-parse", "--is-shallow-repository"]]
      ++ unshallowT ++ [Ev.git ["reset", "--hard", reset_target]]
    if rt.ret ≠ 0 then (some rt.ret, t0)
    else
      (none,
       t0 ++ (spec.refspec_info.drop 1).map
         (fun r => Ev.git ["branch", "-d", get_local_ref r]))

/-- The events of a slot worker from the clone-or-reset decision up to and
including the grouped fetch: everything `process_module` does before the
merge loop.  Mirrors `spec_processor.py` lines 367-409. -/
def pre_merge_trace (wd : String) (conc : Nat) (env : Env) (name : String)
    (spec : ModuleSpec) (root : RefspecInfo) (rest : List RefspecInfo) :
    List Ev :=
  (if !env.pathIsDir then
      (setup_new_repo env name spec root
        (pyOrD (alookup spec.remotes root.remote) root.remote)
        (get_module_path wd name spec)).2
    else
      (reset_repo_for_work env spec root).2)
  ++ (if name ≠ "odoo" then
        [Ev.git ["sparse-checkout", "init", "--cone"]]
          ++ (if !(filter_non_link_module env spec).isEmpty then
                [Ev.git (["sparse-checkout", "set"] ++ spec.modules)]
              else [])
      else [])
  ++ [Ev.git ["checkout", pyStr root.refspec]]
  ++ spec.remotes.flatMap (fun p =>
      [Ev.git ["remote", "add", p.1, p.2],
       Ev.git ["config", "remote." ++ p.1 ++ ".partialCloneFilter", "tree:0"],
       Ev.git ["config", "remote." ++ p.1 ++ ".promisor", "true"]])
  ++ (get_refspec_by_remote rest).map
      (fun p => Ev.git (fetch_multi_args conc p.1 p.2))

/-- Body of process_module after the empty-origins check, for base
descriptor `root` and non-base list `rest`.  Mirrors `spec_processor.py`
lines 367-448: clone-or-reset (result discarded), sparse configuration,
checkout, remote registration, grouped fetch, ordered merge, shell or
patch phase, symlink publication. -/
def process_body (wd : String) (conc : Nat) (env : Env) (name : String)
    (spec : ModuleSpec) (root : RefspecInfo) (rest : List RefspecInfo) :
    Int × List Ev :=
  let symlink_modules := filter_non_link_module env spec
  let module_path := get_module_path wd name spec
  let m := mergeLoop env rest
  let pre := pre_merge_trace wd conc env name spec root rest ++ m.2
  if m.1 ≠ 0 then (-1, pre)
  else
    let s := if !spec.shell_commands.isEmpty then shellLoop env spec.shell_commands
             else (0, [])
    if s.1 ≠ 0 then (s.1, pre ++ s.2)
    else
      let p := if !spec.patch_globs_to_apply.isEmpty then
                 patchLoop env spec.patch_globs_to_apply
               else (0, [])
      if p.1 ≠ 0 then (p.1, pre ++ s.2 ++ p.2)
      else
        let l := link_all_modules env wd symlink_modules module_path
        if l.1.1 ≠ 0 then (l.1.1, pre ++ s.2 ++ p.2 ++ l.2)
        else (0, pre ++ s.2 ++ p.2 ++ l.2)

/-- process_module from `spec_processor.py`: the slot worker.  Returns the
terminal status (0 on success) together with the trace of effecting
steps. -/
def process_module (wd : String) (conc : Nat) (env : Env) (name : String)
    (spec : ModuleSpec) : Int × List Ev :=
  match spec.refspec_info with
  | [] => (-1, [])
  | root :: rest => process_body wd conc env name spec root rest

/-- The aggregation in SpecProcessor.process_project: `asyncio.gather`
collects every slot return code, then `if any(return_codes): raise`. -/
def process_project_raises (envs : String → Env) (wd : String) (conc : Nat)
    (project : List (String × ModuleSpec)) : Bool :=
  (project.map (fun p => (process_module wd conc (envs p.1) p.1 p.2).1)).any
    (fun c => c ≠ 0)

/-- Exit code of the CLI `run` in `__main__.py` for an assembly run that
reaches process_project: the raised exception is caught and mapped to
`sys.exit(1)`; otherwise the interpreter exits 0. -/
def main_exit (envs : String → Env) (wd : String) (conc : Nat)
    (project : List (String × ModuleSpec)) : Nat :=
  if process_project_raises envs wd conc project then 1 else 0

/-! Freeze engine, from `src/bl/freezer.py`. -/

/-- Argument vector of the freeze resolution call. -/
def rev_list_args (local_ref : String) : List String :=
  ["rev-list", "--max-count", "1", local_ref]

/-- Key under which freeze_spec records a descriptor:
`refspec_info.ref_name or refspec_info.refspec` (an optional string, since
both fields can be None in the deprecated three-part form). -/
def keyOf (r : RefspecInfo) : Option String := pyOr r.ref_name r.refspec

/-- One iteration of the loop in freeze_spec: record the rev-list stdout
under (remote, ref_name-or-refspec), without inspecting the exit code. -/
def freezeStep (env : Env) (result : List (String × List (Option String × String)))
    (r : RefspecInfo) : List (String × List (Option String × String)) :=
  let local_ref := get_local_ref_utils r
  let out := (env.git (rev_list_args local_ref)).out
  let data := (alookup result r.remote).getD []
  assocSet result r.remote (assocSet data (keyOf r) out)

/-- The inner mapping built by freeze_spec for one slot. -/
def freeze_spec_entries (env : Env) (spec : ModuleSpec) :
    List (String × List (Option String × String)) :=
  spec.refspec_info.foldl (freezeStep env) []

/-- freeze_project from `freezer.py`: merge each slot result into one
document and return 0 unconditionally. -/
def freeze_project (envs : String → Env)
    (project : List (String × ModuleSpec)) :
    Int × List (String × List (String × List (Option String × String))) :=
  (0, project.foldl
    (fun acc p => assocSet acc p.1 (freeze_spec_entries (envs p.1) p.2)) [])

/-- True for events that are neither a mailbox-patch (`am`) invocation nor
a symlink-publication step: the actions a failed slot must not have
performed. -/
def evClean : Ev → Bool
  | Ev.git args =>
      match args with
      | a :: _ => !(a == "am")
      | [] => true
  | Ev.sh _ => true
  | Ev.mkdirLinks => false
  | Ev.unlink _ => false
  | Ev.symlink _ _ => false

/-- A merge invocation that lets the merge loop proceed: zero exit code
and no CONFLICT on stdout. -/
def mergeOk (env : Env) (r : RefspecInfo) : Prop :=
  (env.git (mergeArgs r)).ret = 0
    ∧ strContains (env.git (mergeArgs r)).out "CONFLICT" = false

/-! Concrete inputs used by evaluation theorems and witnesses. -/

/-- A successful-everything environment: every git call, shell command and
filesystem operation succeeds, `links/` holds nothing, and the module path
already exists as a directory. -/
def baseEnv : Env where
  git := fun _ => { ret := 0, out := "", err := "" }
  pathIsDir := true
  linkIsSymlink := fun _ => false
  linkExists := fun _ => false
  shell := fun _ => { ret := 0, out := "", err := "" }
  symlinkErr := fun _ => none

/-- Environment whose porcelain status reports a dirty tree; everything
else succeeds. -/
def dirtyEnv : Env :=
  { baseEnv with
    git := fun args =>
      if args = ["status", "--porcelain"] then
        { ret := 0, out := "M file.txt", err := "" }
      else { ret := 0, out := "", err := "" } }

/-- The base descriptor of the two-reference example slot. -/
def mainRef : RefspecInfo where
  remote := "o"
  refspec := some "main"
  type := OriginType.BRANCH
  ref_name := none

/-- The non-base descriptor of the two-reference example slot. -/
def devRef : RefspecInfo where
  remote := "o"
  refspec := some "dev"
  type := OriginType.BRANCH
  ref_name := none

/-- A two-reference slot on remote `o`. -/
def dirtySpec : ModuleSpec where
  modules := ["mod_a"]
  remotes := [("o", "https://example.com/r")]
  refspec_info := [mainRef, devRef]
  shell_commands := []
  patch_globs_to_apply := []
  target_folder := none
  frozen_modules := none
  locales := []

/-- Environment in which merging the `dev` reference reports a conflict on
stdout with a zero exit code; everything else succeeds. -/
def conflictEnv : Env :=
  { baseEnv with
    git := fun args =>
      if args = ["merge", "--no-edit", "loc-dev"] then
        { ret := 0, out := "CONFLICT (content): Merge conflict in f", err := "" }
      else { ret := 0, out := "", err := "" } }

/-- A descriptor whose local ref cannot be resolved. -/
def goneRef : RefspecInfo where
  remote := "o"
  refspec := some "gone"
  type := OriginType.BRANCH
  ref_name := none

/-- A slot declaring only the unresolvable descriptor. -/
def goneSpec : ModuleSpec where
  modules := []
  remotes := [("o", "u")]
  refspec_info := [goneRef]
  shell_commands := []
  patch_globs_to_apply := []
  target_folder := none
  frozen_modules := none
  locales := []

/-- Environment in which resolving `loc-gone` fails with exit code 128 and
empty stdout. -/
def badRevEnv : Env :=
  { baseEnv with
    git := fun args =>
      if args = rev_list_args "loc-gone" then
        { ret := 128, out := "", err := "fatal: bad revision" }
      else { ret := 0, out := "", err := "" } }

/-- A descriptor rewritten by freeze substitution: pinned commit with the
original branch name kept in `ref_name`. -/
def pinnedRef : RefspecInfo where
  remote := "o"
  refspec := some "aaaaaaaaaaaaaaaaaaaaaaaaaaaaaaaaaaaaaaaa"
  type := OriginType.REF
  ref_name := some "main"

/-- A slot declaring only the pinned descriptor. -/
def pinnedSpec : ModuleSpec where
  modules := []
  remotes := [("o", "u")]
  refspec_info := [pinnedRef]
  shell_commands := []
  patch_globs_to_apply := []
  target_folder := none
  frozen_modules := none
  locales := []

/-- A pull-request descriptor as parsed from `oca refs/pull/188/head`. -/
def prRef : RefspecInfo where
  remote := "oca"
  refspec := some "refs/pull/188/head"
  type := OriginType.PR
  ref_name := none

/-- The base descriptor of a minimal odoo slot. -/
def odooBranchRef : RefspecInfo where
  remote := "origin"
  refspec := some "16.0"
  type := OriginType.BRANCH
  ref_name := none

/-- A minimal odoo slot with an empty locale list. -/
def odooSpecNoLocales : ModuleSpec where
  modules := []
  remotes := [("origin", "https://example.com/odoo")]
  refspec_info := [odooBranchRef]
  shell_commands := []
  patch_globs_to_apply := []
  target_folder := none
  frozen_modules := none
  locales := []

/-! Helper lemmas shared by several claim theorems. -/

theorem listPre_iff_append (p c : List Char) :
    listPre p c = true ↔ ∃ t, c = p ++ t := by
  induction p generalizing c with
  | nil =>
      simp [listPre]
  | cons a as ih =>
      cases c with
      | nil =>
          simp [listPre]
      | cons b bs =>
          simp only [listPre, Bool.and_eq_true, decide_eq_true_eq, ih,
            List.cons_append, List.cons.injEq]
          constructor
          · rintro ⟨hab, t, ht⟩
            exact ⟨t, hab.symm, ht⟩
          · rintro ⟨t, hba, ht⟩
            exact ⟨hba.symm, t, ht⟩

theorem refMatch_false_of_prMatch (s : String) (h : prMatch s = true) :
    refMatch s = false := by
  simp only [prMatch, Bool.and_eq_true] at h
  obtain ⟨t, ht⟩ := (listPre_iff_append _ _).mp h.1
  have hmem : ('/' : Char) ∈ s.data := by
    rw [ht]
    exact List.mem_append_left _ (by decide)
  cases hall : s.data.all (fun c => c.isDigit || ('a' ≤ c && c ≤ 'z')) with
  | false =>
      simp [refMatch, hall]
  | true =>
      exact absurd (List.all_eq_true.mp hall '/' hmem) (by decide)

theorem get_origin_type_REF_iff (s : String) :
    get_origin_type s = OriginType.REF ↔ refMatch s = true := by
  unfold get_origin_type
  by_cases hp : prMatch s = true
  · rw [if_pos hp, refMatch_false_of_prMatch s hp]
    simp
  · rw [if_neg hp]
    by_cases hr : refMatch s = true
    · simp [hr]
    · simp [hr]

theorem alookup_assocSet {κ α : Type} [DecidableEq κ]
    (l : List (κ × α)) (k k2 : κ) (v : α) :
    alookup (assocSet l k v) k2 = if k = k2 then some v else alookup l k2 := by
  induction l with
  | nil =>
      simp [assocSet, alookup]
  | cons hd tl ih =>
      obtain ⟨k0, v0⟩ := hd
      by_cases h0 : k0 = k
      · subst h0
        by_cases h2 : k0 = k2 <;> simp [assocSet, alookup, h2]
      · by_cases h2 : k0 = k2
        · subst h2
          have : ¬ k = k0 := fun hc => h0 hc.symm
          simp [assocSet, alookup, h0, this]
        · simp [assocSet, alookup, h0, h2, ih]

theorem get_local_ref_utils_eq (r : RefspecInfo) :
    get_local_ref_utils r = "loc-" ++ pyStr (keyOf r) := rfl

theorem lookup2_freezeStep (env : Env)
    (res : List (String × List (Option String × String)))
    (r : RefspecInfo) (k1 : String) (k2 : Option String) :
    lookup2 (freezeStep env res r) k1 k2 =
      if k1 = r.remote ∧ k2 = keyOf r then
        some ((env.git (rev_list_args (get_local_ref_utils r))).out)
      else lookup2 res k1 k2 := by
  by_cases h1 : k1 = r.remote
  · subst h1
    by_cases h2 : k2 = keyOf r
    · subst h2
      simp [freezeStep, lookup2, alookup_assocSet]
    · simp [freezeStep, lookup2, alookup_assocSet, h2, Ne.symm h2]
  · simp [freezeStep, lookup2, alookup_assocSet, h1, Ne.symm h1]

theorem freeze_fold_pres (env : Env) (l : List RefspecInfo)
    (acc : List (String × List (Option String × String)))
    (k1 : String) (k2 : Option String) :
    lookup2 (l.foldl (freezeStep env) acc) k1 k2 = lookup2 acc k1 k2
      ∨ lookup2 (l.foldl (freezeStep env) acc) k1 k2
          = some ((env.git (rev_list_args ("loc-" ++ pyStr k2))).out) := by
  induction l generalizing acc with
  | nil =>
      left
      rfl
  | cons x xs ih =>
      rw [List.foldl_cons]
      rcases ih (freezeStep env acc x) with h | h
      · rw [h, lookup2_freezeStep]
        by_cases hc : k1 = x.remote ∧ k2 = keyOf x
        · right
          rw [if_pos hc, get_local_ref_utils_eq, hc.2]
        · left
          rw [if_neg hc]
      · right
        exact h

theorem freeze_fold_mem (env : Env) (l : List RefspecInfo)
    (acc : List (String × List (Option String × String)))
    (r : RefspecInfo) (h : r ∈ l) :
    lookup2 (l.foldl (freezeStep env) acc) r.remote (keyOf r)
      = some ((env.git (rev_list_args (get_local_ref_utils r))).out) := by
  induction l generalizing acc with
  | nil =>
      cases h
  | cons x xs ih =>
      rw [List.foldl_cons]
      by_cases hx : r ∈ xs
      · exact ih _ hx
      · have hrx : r = x := by
          rcases List.mem_cons.mp h with h1 | h1
          · exact h1
          · exact absurd h1 hx
        subst hrx
        rcases freeze_fold_pres env xs (freezeStep env acc r) r.remote (keyOf r)
          with hp | hp
        · rw [hp, lookup2_freezeStep, if_pos ⟨rfl, rfl⟩]
        · rw [hp, get_local_ref_utils_eq]

/-! Claim theorems. -/

/-- C3: the source classifier accepts every 40-character lowercase
alphanumeric string as REF, but the claimed pattern is 40-hex: the string
of forty z-characters is classified REF by `get_origin_type` while it
matches neither the claimed `[a-f0-9]` pattern nor the PR pattern, so the
claim says BRANCH.  The source regex `[a-z0-9]` contradicts the comment
above it, which says 40 hex characters. -/
theorem c3_ref_pattern_accepts_non_hex :
    get_origin_type (String.mk (List.replicate 40 'z')) = OriginType.REF
      ∧ refMatchSpecHex (String.mk (List.replicate 40 'z')) = false
      ∧ prMatch (String.mk (List.replicate 40 'z')) = false := by
  decide

/-- C6 counterexample: the clone plan of the odoo slot with an empty
locale list still contains the sparse flag, since `create_clone_args`
starts from an unconditional `["clone", "--filter=tree:0", "--sparse"]`. -/
theorem c6_counterexample :
    odooSpecNoLocales.locales = []
      ∧ "--sparse" ∈ create_clone_args "odoo" odooBranchRef
          "https://example.com/odoo" (odooSpecNoLocales.refspec_info.length == 1) := by
  decide

/-- C6 amended: the clone argument plan contains the sparse flag for every
slot, regardless of slot name, locale list, reference type or
shallowness. -/
theorem c6_amended_always_sparse (name : String) (d : RefspecInfo)
    (url : String) (shallow : Bool) :
    "--sparse" ∈ create_clone_args name d url shallow := by
  unfold create_clone_args
  simp

/-- C2: the code does not fail the slot on a dirty working tree.  With a
porcelain status reporting a modification, `reset_repo_for_work` returns
early, but `process_module` discards that value and continues: the remote
is added, the non-base reference is fetched and merged, and the slot
terminates with status 0. -/
theorem c2_dirty_tree_continues :
    (dirtyEnv.git ["status", "--porcelain"]).out ≠ ""
      ∧ (process_module "/w" 4 dirtyEnv "a" dirtySpec).1 = 0
      ∧ Ev.git ["remote", "add", "o", "https://example.com/r"]
          ∈ (process_module "/w" 4 dirtyEnv "a" dirtySpec).2
      ∧ Ev.git ["fetch", "-j", "4", "o", "dev:loc-dev"]
          ∈ (process_module "/w" 4 dirtyEnv "a" dirtySpec).2
      ∧ Ev.git ["merge", "--no-edit", "loc-dev"]
          ∈ (process_module "/w" 4 dirtyEnv "a" dirtySpec).2 := by
  decide

/-- C7 counterexample: for a PR-type descriptor the local ref used by
fetch and merge is `pr/188`, not `loc-refs/pull/188/head` as the claim
states. -/
theorem c7_counterexample :
    get_local_ref prRef = "pr/188"
      ∧ get_local_ref prRef ≠ "loc-" ++ pyStr (pyOr prRef.ref_name prRef.refspec) := by
  decide

/-- C4 counterexample: in a slot with a non-empty frozen section, a merge
entry whose (remote, refspec) pair has no pin is still rewritten to type
REF with `pinned_name` set, while the refspec stays `14.0`, which matches
neither the claimed 40-hex pattern nor even the source 40-alphanumeric
pattern: the claimed invariant `type = REF iff refspec matches the 40-hex
pattern` fails. -/
theorem c4_counterexample :
    parseMergeEntry
        (some [("oca", [("other", "aaaaaaaaaaaaaaaaaaaaaaaaaaaaaaaaaaaaaaaa")])])
        "oca 14.0"
      = some { remote := "oca", refspec := some "14.0",
               type := OriginType.REF, ref_name := some "14.0" }
      ∧ refMatchSpecHex "14.0" = false
      ∧ refMatch "14.0" = false := by
  decide

/-- C8 counterexample: on a successful link pass the published symlink
target is the verbatim slot path `/w/external-src/a/mod_a`; expressed
relative to the `links/` directory it would have been
`../external-src/a/mod_a`. -/
theorem c8_counterexample :
    (link_all_modules baseEnv "/w" ["mod_a"] "/w/external-src/a").1.1 = 0
      ∧ (link_all_modules baseEnv "/w" ["mod_a"] "/w/external-src/a").2
          = [Ev.mkdirLinks,
             Ev.symlink "/w/external-src/a/mod_a" "/w/links/mod_a"]
      ∧ "/w/external-src/a/mod_a" ≠ "../external-src/a/mod_a" := by
  decide

/-- C4 amended: for every two-part merge entry, when the slot has a
non-empty frozen section the descriptor is rewritten to type REF with
`pinned_name` set to the original refspec regardless of whether a pin is
known, and the refspec becomes the pinned commit only when the lookup is
present and non-empty; without a frozen section `pinned_name` is null and
the type is REF exactly when the refspec matches the source pattern
`[a-z0-9]{40}` (the PR pattern cannot also match such a string). -/
theorem c4_amended_two_part (fs : Option FrozenSection)
    (entry remote_key ref_spec : String)
    (h : pySplit ' ' 2 entry = [remote_key, ref_spec]) :
    parseMergeEntry fs entry
        = some { remote := remote_key,
                 refspec := some (if frozenTruthy fs then
                       pyOrD (alookup ((alookup (fs.getD []) remote_key).getD [])
                         ref_spec) ref_spec
                     else ref_spec),
                 type := if frozenTruthy fs then OriginType.REF
                     else get_origin_type ref_spec,
                 ref_name := if frozenTruthy fs then some ref_spec else none }
      ∧ (get_origin_type ref_spec = OriginType.REF ↔ refMatch ref_spec = true) := by
  refine ⟨?_, get_origin_type_REF_iff ref_spec⟩
  unfold parseMergeEntry
  rw [h]
  by_cases hf : frozenTruthy fs = true
  · simp [hf]
  · simp [hf]

/-- Witness for c4_amended_two_part at a concrete frozen slot whose pin
for (o, main) is known. -/
theorem c4_amended_witness :
    parseMergeEntry
        (some [("o", [("main", "aaaaaaaaaaaaaaaaaaaaaaaaaaaaaaaaaaaaaaaa")])])
        "o main"
      = some { remote := "o",
               refspec := some "aaaaaaaaaaaaaaaaaaaaaaaaaaaaaaaaaaaaaaaa",
               type := OriginType.REF, ref_name := some "main" }
      ∧ (get_origin_type "main" = OriginType.REF ↔ refMatch "main" = true) :=
  c4_amended_two_part
    (some [("o", [("main", "aaaaaaaaaaaaaaaaaaaaaaaaaaaaaaaaaaaaaaaa")])])
    "o main" "o" "main" (by decide)

/-- C10: in a slot with a non-empty frozen section, a deprecated
three-part merge entry takes the raw frozen lookup as its refspec (null
when the lookup is absent), while a two-part entry falls back to the
original refspec when the lookup is absent or empty. -/
theorem c10_three_part_raw_two_part_fallback (fs : FrozenSection)
    (hfs : fs ≠ [])
    (e3 r3 mid s3 : String) (h3 : pySplit ' ' 2 e3 = [r3, mid, s3])
    (e2 r2 s2 : String) (h2 : pySplit ' ' 2 e2 = [r2, s2]) :
    parseMergeEntry (some fs) e3
        = some { remote := r3, refspec := alookup ((alookup fs r3).getD []) s3,
                 type := get_origin_type s3, ref_name := some s3 }
      ∧ parseMergeEntry (some fs) e2
        = some { remote := r2,
                 refspec := some (pyOrD (alookup ((alookup fs r2).getD []) s2) s2),
                 type := OriginType.REF, ref_name := some s2 } := by
  have hft : frozenTruthy (some fs) = true := by
    cases fs with
    | nil => exact absurd rfl hfs
    | cons a l => rfl
  constructor
  · unfold parseMergeEntry
    rw [h3]
    simp [hft]
  · unfold parseMergeEntry
    rw [h2]
    simp [hft]

/-- Witness for c10_three_part_raw_two_part_fallback: the frozen section
has no entry for remote `o`, so the three-part refspec is null and the
two-part refspec falls back to the original `main`. -/
theorem c10_witness :
    parseMergeEntry (some [("x", [("y", "z")])]) "o u main"
        = some { remote := "o", refspec := none,
                 type := OriginType.BRANCH, ref_name := some "main" }
      ∧ parseMergeEntry (some [("x", [("y", "z")])]) "o main"
        = some { remote := "o", refspec := some "main",
                 type := OriginType.REF, ref_name := some "main" } :=
  c10_three_part_raw_two_part_fallback [("x", [("y", "z")])] (by decide)
    "o u main" "o" "u" "main" (by decide) "o main" "o" "main" (by decide)

/-- C5: the CLI exits 0 exactly when every slot worker returned status 0;
any non-zero slot status makes process_project raise, which the CLI maps
to exit code 1. -/
theorem c5_exit_zero_iff_all_slots_zero (envs : String → Env) (wd : String)
    (conc : Nat) (project : List (String × ModuleSpec)) :
    main_exit envs wd conc project = 0
      ↔ ∀ p ∈ project, (process_module wd conc (envs p.1) p.1 p.2).1 = 0 := by
  unfold main_exit process_project_raises
  constructor
  · intro h0 p hp
    by_contra hne
    have hany : (project.map
        (fun p => (process_module wd conc (envs p.1) p.1 p.2).1)).any
          (fun c => c ≠ 0) = true := by
      simp only [List.any_eq_true, List.mem_map, decide_eq_true_eq]
      exact ⟨_, ⟨p, hp, rfl⟩, hne⟩
    rw [hany] at h0
    exact absurd h0 (by decide)
  · intro hall
    have hany : (project.map
        (fun p => (process_module wd conc (envs p.1) p.1 p.2).1)).any
          (fun c => c ≠ 0) = false := by
      simp only [List.any_eq_false, List.mem_map, decide_eq_true_eq]
      rintro c ⟨p, hp, rfl⟩
      exact fun hne => hne (hall p hp)
    rw [hany]
    rfl

/-- C9: freeze_spec records the stdout of `rev-list --max-count 1` under
(remote, pinned-name-or-refspec) without inspecting the exit code, and
freeze_project returns 0 unconditionally; an unresolvable reference thus
yields an entry holding the raw (possibly empty) stdout rather than a
failure. -/
theorem c9_freeze_records_raw_stdout (env : Env) (spec : ModuleSpec)
    (r : RefspecInfo) (h : r ∈ spec.refspec_info)
    (envs : String → Env) (project : List (String × ModuleSpec)) :
    lookup2 (freeze_spec_entries env spec) r.remote (keyOf r)
        = some ((env.git (rev_list_args (get_local_ref_utils r))).out)
      ∧ (freeze_project envs project).1 = 0 :=
  ⟨freeze_fold_mem env spec.refspec_info [] r h, rfl⟩

/-- Witness for c9_freeze_records_raw_stdout: the rev-list call fails with
exit code 128 and empty stdout, yet the slot entry is recorded as the
empty string and the freeze run still returns 0. -/
theorem c9_witness :
    lookup2 (freeze_spec_entries badRevEnv goneSpec) goneRef.remote (keyOf goneRef)
        = some ((badRevEnv.git (rev_list_args (get_local_ref_utils goneRef))).out)
      ∧ (freeze_project (fun _ => badRevEnv) [("s", goneSpec)]).1 = 0
      ∧ (badRevEnv.git (rev_list_args (get_local_ref_utils goneRef))).ret = 128
      ∧ (badRevEnv.git (rev_list_args (get_local_ref_utils goneRef))).out = "" := by
  obtain ⟨h1, h2⟩ := c9_freeze_records_raw_stdout badRevEnv goneSpec goneRef
    (by decide) (fun _ => badRevEnv) [("s", goneSpec)]
  exact ⟨h1, h2, by decide, by decide⟩

/-- C7 amended: the freeze engine resolves descriptors under
`loc-` + (pinned_name or refspec), but fetch and merge use a different
scheme: `pr/<id>` for PR-type descriptors and `loc-` + refspec (ignoring
`pinned_name`) otherwise. -/
theorem c7_amended_local_ref_schemes (conc : Nat) (remote : String)
    (lst : List RefspecInfo) (d : RefspecInfo) (hd : d ∈ lst)
    (env : Env) (spec : ModuleSpec) (r : RefspecInfo)
    (hr : r ∈ spec.refspec_info) :
    (pyStr d.refspec ++ ":" ++
        (if d.type = OriginType.PR then
           "pr/" ++ pyIdxNeg2 (pySplitAll '/' (pyStr d.refspec))
         else "loc-" ++ pyStr d.refspec)) ∈ fetch_multi_args conc remote lst
      ∧ mergeArgs d
          = ["merge", "--no-edit",
             if d.type = OriginType.PR then
               "pr/" ++ pyIdxNeg2 (pySplitAll '/' (pyStr d.refspec))
             else "loc-" ++ pyStr d.refspec]
      ∧ lookup2 (freeze_spec_entries env spec) r.remote (keyOf r)
          = some ((env.git (rev_list_args
              ("loc-" ++ pyStr (pyOr r.ref_name r.refspec)))).out) := by
  refine ⟨?_, rfl, freeze_fold_mem env spec.refspec_info [] r hr⟩
  show pyStr d.refspec ++ ":" ++ get_local_ref d ∈ fetch_multi_args conc remote lst
  unfold fetch_multi_args
  exact List.mem_append_right _ (List.mem_map_of_mem _ hd)

/-- Witness for c7_amended_local_ref_schemes at a PR descriptor in the
fetch list and a pinned descriptor in the frozen slot. -/
theorem c7_amended_witness :
    (pyStr prRef.refspec ++ ":" ++
        (if prRef.type = OriginType.PR then
           "pr/" ++ pyIdxNeg2 (pySplitAll '/' (pyStr prRef.refspec))
         else "loc-" ++ pyStr prRef.refspec)) ∈ fetch_multi_args 2 "o" [prRef, pinnedRef]
      ∧ mergeArgs prRef
          = ["merge", "--no-edit",
             if prRef.type = OriginType.PR then
               "pr/" ++ pyIdxNeg2 (pySplitAll '/' (pyStr prRef.refspec))
             else "loc-" ++ pyStr prRef.refspec]
      ∧ lookup2 (freeze_spec_entries baseEnv pinnedSpec) pinnedRef.remote (keyOf pinnedRef)
          = some ((baseEnv.git (rev_list_args
              ("loc-" ++ pyStr (pyOr pinnedRef.ref_name pinnedRef.refspec)))).out) :=
  c7_amended_local_ref_schemes 2 "o" [prRef, pinnedRef] prRef (by decide)
    baseEnv pinnedSpec pinnedRef (by decide)

/-- Every module of a link pass that finished with status 0 got its
symlink event, targeting the verbatim joined path. -/
theorem linkLoop_mem (env : Env) (links_path module_path : String)
    (mods : List String) (m : String) (hm : m ∈ mods)
    (hok : (linkLoop env links_path module_path mods).1.1 = 0) :
    Ev.symlink (pathJoin module_path m) (pathJoin links_path m)
      ∈ (linkLoop env links_path module_path mods).2 := by
  induction mods with
  | nil => cases hm
  | cons x xs ih =>
      rcases hx : env.symlinkErr x with _ | e
      · simp only [linkLoop, hx] at hok ⊢
        rcases List.mem_cons.mp hm with rfl | hm2
        · apply List.mem_append_left
          exact List.mem_append_right _ (by simp)
        · exact List.mem_append_right _ (ih hm2 hok)
      · simp only [linkLoop, hx] at hok
        exact absurd hok (by decide)

/-- C8 amended: after a successful link pass, `links/<module>` receives a
symlink whose target is `<slot_path>/<module>` taken verbatim (the
workdir-based, typically absolute path), not a path relativized to the
`links/` directory. -/
theorem c8_amended_verbatim_target (env : Env) (wd module_path : String)
    (mods : List String) (m : String) (hm : m ∈ mods)
    (hok : (link_all_modules env wd mods module_path).1.1 = 0) :
    Ev.symlink (pathJoin module_path m) (pathJoin (pathJoin wd "links") m)
      ∈ (link_all_modules env wd mods module_path).2 := by
  have h2 : (linkLoop env (pathJoin wd "links") module_path mods).1.1 = 0 := hok
  exact List.mem_cons_of_mem _ (linkLoop_mem env _ _ mods m hm h2)

/-- Witness for c8_amended_verbatim_target at the concrete slot of the C8
counterexample. -/
theorem c8_amended_witness :
    Ev.symlink (pathJoin "/w/external-src/a" "mod_a")
        (pathJoin (pathJoin "/w" "links") "mod_a")
      ∈ (link_all_modules baseEnv "/w" ["mod_a"] "/w/external-src/a").2 :=
  c8_amended_verbatim_target baseEnv "/w" "/w/external-src/a" ["mod_a"] "mod_a"
    (by decide) (by decide)

/-! Trace cleanliness of the phases preceding the merge loop, and the
behaviour of the merge loop at the first conflict. -/

theorem setup_clean (env : Env) (name : String) (spec : ModuleSpec)
    (root : RefspecInfo) (u mp : String) :
    ((setup_new_repo env name spec root u mp).2.all evClean) = true := by
  by_cases ht : root.type = OriginType.REF
  · simp only [setup_new_repo, clone_base_repo_ref, ht, if_true]
    rfl
  · simp only [setup_new_repo, clone_base_repo_ref, if_neg ht]
    rfl

theorem all_clean_branchD (l : List RefspecInfo) :
    ((l.map (fun r => Ev.git ["branch", "-d", get_local_ref r])).all evClean)
      = true := by
  induction l with
  | nil => rfl
  | cons x xs ih =>
      rw [List.map_cons, List.all_cons, ih]
      rfl

theorem reset_clean (env : Env) (spec : ModuleSpec) (root : RefspecInfo) :
    ((reset_repo_for_work env spec root).2.all evClean) = true := by
  simp only [reset_repo_for_work]
  by_cases h1 : (env.git ["status", "--porcelain"]).out ≠ ""
  · rw [if_pos h1]
    rfl
  · rw [if_neg h1]
    by_cases h2 : (decide (spec.refspec_info.length > 1)
        && ((env.git ["rev-parse", "--is-shallow-repository"]).out == "true")) = true
    · rw [if_pos h2]
      by_cases h3 : (env.git ["reset", "--hard",
          root.remote ++ "/" ++ pyStr root.refspec]).ret ≠ 0
      · rw [if_pos h3]
        rfl
      · rw [if_neg h3]
        simp only [List.all_append, all_clean_branchD]
        rfl
    · rw [if_neg h2]
      by_cases h3 : (env.git ["reset", "--hard",
          root.remote ++ "/" ++ pyStr root.refspec]).ret ≠ 0
      · rw [if_pos h3]
        rfl
      · rw [if_neg h3]
        simp only [List.all_append, all_clean_branchD]
        rfl

theorem all_clean_remotes (l : List (String × String)) :
    ((l.flatMap (fun p =>
        [Ev.git ["remote", "add", p.1, p.2],
         Ev.git ["config", "remote." ++ p.1 ++ ".partialCloneFilter", "tree:0"],
         Ev.git ["config", "remote." ++ p.1 ++ ".promisor", "true"]])).all evClean)
      = true := by
  induction l with
  | nil => rfl
  | cons x xs ih =>
      rw [List.flatMap_cons, List.all_append, ih]
      rfl

theorem all_clean_fetch (conc : Nat) (l : List (String × List RefspecInfo)) :
    ((l.map (fun p => Ev.git (fetch_multi_args conc p.1 p.2))).all evClean)
      = true := by
  induction l with
  | nil => rfl
  | cons x xs ih =>
      rw [List.map_cons, List.all_cons, ih]
      rfl

theorem pre_merge_trace_clean (wd : String) (conc : Nat) (env : Env)
    (name : String) (spec : ModuleSpec) (root : RefspecInfo)
    (rest : List RefspecInfo) :
    ((pre_merge_trace wd conc env name spec root rest).all evClean) = true := by
  unfold pre_merge_trace
  simp only [List.all_append]
  have h1 : ((if !env.pathIsDir then
      (setup_new_repo env name spec root
        (pyOrD (alookup spec.remotes root.remote) root.remote)
        (get_module_path wd name spec)).2
    else
      (reset_repo_for_work env spec root).2).all evClean) = true := by
    cases hb : env.pathIsDir
    · simp only [hb, Bool.not_false, if_true]
      exact setup_clean env name spec root _ _
    · simp only [hb, Bool.not_true, Bool.false_eq_true, if_false]
      exact reset_clean env spec root
  have h2 : ((if name ≠ "odoo" then
        [Ev.git ["sparse-checkout", "init", "--cone"]]
          ++ (if !(filter_non_link_module env spec).isEmpty then
                [Ev.git (["sparse-checkout", "set"] ++ spec.modules)]
              else [])
      else ([] : List Ev)).all evClean) = true := by
    by_cases hn : name ≠ "odoo"
    · rw [if_pos hn]
      by_cases hm : (!(filter_non_link_module env spec).isEmpty) = true
      · rw [if_pos hm]
        rfl
      · rw [if_neg hm]
        rfl
    · rw [if_neg hn]
      rfl
  rw [h1, h2, all_clean_remotes, all_clean_fetch]
  rfl

theorem try_merge_conflict (env : Env) (d : RefspecInfo)
    (hconf : strContains (env.git (mergeArgs d)).out "CONFLICT" = true) :
    try_merge env d
      = ((-1, (env.git (mergeArgs d)).out),
         [Ev.git (mergeArgs d), Ev.git ["merge", "--abort"]]) := by
  unfold try_merge normalize_merge_result
  simp only [hconf, if_true]

theorem try_merge_clean (env : Env) (r : RefspecInfo) :
    ((try_merge env r).2.all evClean) = true := by
  unfold try_merge
  by_cases hc : strContains (normalize_merge_result (env.git (mergeArgs r)).ret
      (env.git (mergeArgs r)).out (env.git (mergeArgs r)).err).2 "CONFLICT" = true
  · simp only [hc, if_true]
    rfl
  · simp only [if_neg hc]
    rfl

theorem mergeLoop_clean (env : Env) (l : List RefspecInfo) :
    ((mergeLoop env l).2.all evClean) = true := by
  induction l with
  | nil => rfl
  | cons x xs ih =>
      simp only [mergeLoop]
      by_cases h : (try_merge env x).1.1 ≠ 0
      · rw [if_pos h]
        exact try_merge_clean env x
      · rw [if_neg h]
        simp only [List.all_append, try_merge_clean, ih]
        rfl

theorem mergeLoop_conflict (env : Env) (pre post : List RefspecInfo)
    (d : RefspecInfo) (hpre : ∀ r ∈ pre, mergeOk env r)
    (hconf : strContains (env.git (mergeArgs d)).out "CONFLICT" = true) :
    (mergeLoop env (pre ++ d :: post)).1 = -1
      ∧ Ev.git ["merge", "--abort"] ∈ (mergeLoop env (pre ++ d :: post)).2 := by
  induction pre with
  | nil =>
      rw [List.nil_append]
      simp only [mergeLoop, try_merge_conflict env d hconf]
      rw [if_pos (by decide : (-1 : Int) ≠ 0)]
      exact ⟨rfl, by simp⟩
  | cons x xs ih =>
      have hx := hpre x (List.mem_cons_self x xs)
      have hxs : ∀ r ∈ xs, mergeOk env r :=
        fun r hr => hpre r (List.mem_cons_of_mem x hr)
      obtain ⟨hih1, hih2⟩ := ih hxs
      have hn : (try_merge env x).1.1 = 0 := by
        unfold try_merge normalize_merge_result
        simp only [hx.2, Bool.false_eq_true, if_false]
        exact hx.1
      rw [List.cons_append]
      simp only [mergeLoop]
      rw [if_neg (by rw [hn]; exact fun hc => hc rfl)]
      exact ⟨hih1, List.mem_append_right _ hih2⟩

/-- C1: when the merge of a non-base descriptor (the first one whose merge
does not proceed) prints CONFLICT on stdout, the result is normalized to
an error regardless of the git exit code, `merge --abort` is issued, the
slot worker returns -1, and the whole trace contains no mailbox-patch
(`am`) invocation and no symlink-publication step. -/
theorem c1_merge_conflict_fails_slot (wd : String) (conc : Nat) (env : Env)
    (name : String) (spec : ModuleSpec) (root : RefspecInfo)
    (pre post : List RefspecInfo) (d : RefspecInfo)
    (hspec : spec.refspec_info = root :: (pre ++ d :: post))
    (hpre : ∀ r ∈ pre, mergeOk env r)
    (hconf : strContains (env.git (mergeArgs d)).out "CONFLICT" = true) :
    (process_module wd conc env name spec).1 = -1
      ∧ Ev.git ["merge", "--abort"] ∈ (process_module wd conc env name spec).2
      ∧ ((process_module wd conc env name spec).2.all evClean) = true := by
  have hpm : process_module wd conc env name spec
      = process_body wd conc env name spec root (pre ++ d :: post) := by
    unfold process_module
    rw [hspec]
  obtain ⟨hm1, hm2⟩ := mergeLoop_conflict env pre post d hpre hconf
  rw [hpm]
  simp only [process_body]
  rw [if_pos (by rw [hm1]; decide : (mergeLoop env (pre ++ d :: post)).1 ≠ 0)]
  refine ⟨rfl, ?_, ?_⟩
  · exact List.mem_append_right _ hm2
  · rw [List.all_append, pre_merge_trace_clean, mergeLoop_clean]
    rfl

/-- Witness for c1_merge_conflict_fails_slot: merging the `dev` reference
of the two-reference slot reports CONFLICT on stdout with exit code 0. -/
theorem c1_witness :
    (process_module "/w" 4 conflictEnv "a" dirtySpec).1 = -1
      ∧ Ev.git ["merge", "--abort"]
          ∈ (process_module "/w" 4 conflictEnv "a" dirtySpec).2
      ∧ (((process_module "/w" 4 conflictEnv "a" dirtySpec).2).all evClean)
          = true :=
  c1_merge_conflict_fails_slot "/w" 4 conflictEnv "a" dirtySpec mainRef [] []
    devRef (by decide) (by intro r hr; cases hr) (by decide)

end BL
